import Mathlib

/-!
Verification of the cpppo-go EtherNet/IP / CIP client library.

This file gives a shallow embedding of the library core: the scalar codec
(EncodeBool/DecodeBool, EncodeInt16/DecodeInt16, EncodeInt32/DecodeInt32,
EncodeFloat32/DecodeFloat32), the CIP messaging layer (BuildCIPPath,
BuildCIPReadRequest, BuildCIPWriteRequest, CIPStatusToError, ParseCIPResponse,
ParseCIPReadResponse) and the EtherNet/IP session layer (RegisterSession,
unregisterSession, Close, SendRRData, SendUnitData), followed by theorems
settling the specification claims.

Modelling conventions:
- Go byte slices are `List Nat`, each entry a byte value (below 256 whenever
  it was produced by the embedded code).
- Machine integers are `Nat`/`Int` with explicit `% 2^w` at the points where
  the Go code performs a narrowing conversion such as `byte(x)`.
- A `float32` value is represented by its IEEE-754 binary32 bit pattern, a
  `Nat` below 2^32.  Go `math.Float32bits` and `math.Float32frombits` are the
  two directions of a bijection between `float32` and 32-bit patterns, so
  under this representation both are the identity on the bit pattern.
- Go errors are the inductive `GoErr`: `errors.New`/`fmt.Errorf` strings keep
  their leading message text (the formatted argument tail carried by
  `fmt.Errorf` is elided), the `CIPError` struct is the `cip` constructor,
  and the typed-read mismatch error keeps its two numeric arguments.
- Network effects are passed explicitly: a `Client` carries the list of
  frames written to the socket and the closed flag of the socket, and each
  operation takes the success of the socket write and the bytes produced by
  each socket read as oracle arguments.  The mutex of the Go client only
  serialises calls and has no effect in this sequential model; the
  SetWriteDeadline/SetReadDeadline failure paths are folded into the
  corresponding write/read failure oracle.
-/

/-- Little-endian 16-bit read at offset `i` of a byte list
(`binary.LittleEndian.Uint16(l[i:])`). -/
def le16At (l : List Nat) (i : Nat) : Nat :=
  l.getD i 0 + 256 * l.getD (i + 1) 0

/-- Little-endian 32-bit read at offset `i` of a byte list
(`binary.LittleEndian.Uint32(l[i:])`). -/
def le32At (l : List Nat) (i : Nat) : Nat :=
  l.getD i 0 + 256 * l.getD (i + 1) 0 + 65536 * l.getD (i + 2) 0 +
    16777216 * l.getD (i + 3) 0

/-- Little-endian 16-bit write (`binary.LittleEndian.PutUint16`). -/
def le16Bytes (n : Nat) : List Nat :=
  [n % 256, n / 256 % 256]

/-- Little-endian 32-bit write (`binary.LittleEndian.PutUint32`). -/
def le32Bytes (n : Nat) : List Nat :=
  [n % 256, n / 256 % 256, n / 65536 % 256, n / 16777216 % 256]

/-- Go error values returned by the library: `errors.New`/`fmt.Errorf`
message strings, the `CIPError{Code, ExtendedMsg}` struct, and the typed-read
data-type mismatch error with its two byte arguments. -/
inductive GoErr where
  | str (s : String)
  | cip (code : Nat) (extendedMsg : String)
  | typeMismatch (expected actual : Nat)
deriving DecidableEq

/-- The dynamically typed result of `ParseCIPReadResponse` (`interface{}` in
Go): one constructor per CIP scalar type, with `real` holding the binary32
bit pattern of the returned `float32`. -/
inductive CIPValue where
  | bool (b : Bool)
  | sint (v : Int)
  | int (v : Int)
  | dint (v : Int)
  | real (bits : Nat)
  | dword (v : Nat)
  | strv (bytes : List Nat)
  | raw (bytes : List Nat)
deriving DecidableEq

/-- Go `int8(u)` for a byte `u`. -/
def int8OfUint8 (u : Nat) : Int :=
  if u < 128 then (u : Int) else (u : Int) - 256

/-- Go `int16(u)` for a 16-bit unsigned `u`. -/
def int16OfUint16 (u : Nat) : Int :=
  if u < 32768 then (u : Int) else (u : Int) - 65536

/-- Go `int32(u)` for a 32-bit unsigned `u`. -/
def int32OfUint32 (u : Nat) : Int :=
  if u < 2147483648 then (u : Int) else (u : Int) - 4294967296

/-- Go `uint16(v)` for an `int16` value `v`: the two's-complement bit
pattern. -/
def toUint16 (v : Int) : Nat :=
  (v % 65536).toNat

/-- Go `uint32(v)` for an `int32` value `v`: the two's-complement bit
pattern. -/
def toUint32 (v : Int) : Nat :=
  (v % 4294967296).toNat

/-- EncodeBool encodes a boolean value for CIP. -/
def EncodeBool (value : Bool) : List Nat :=
  if value then [1] else [0]

/-- EncodeInt16 encodes an int16 value for CIP. -/
def EncodeInt16 (value : Int) : List Nat :=
  le16Bytes (toUint16 value)

/-- EncodeInt32 encodes an int32 value for CIP. -/
def EncodeInt32 (value : Int) : List Nat :=
  le32Bytes (toUint32 value)

/-- EncodeFloat32 encodes a float32 value for CIP; the argument is the
binary32 bit pattern of the value (`math.Float32bits`). -/
def EncodeFloat32 (bits : Nat) : List Nat :=
  le32Bytes bits

/-- DecodeBool decodes a CIP boolean value. -/
def DecodeBool (data : List Nat) : Except GoErr Bool :=
  if data.length < 1 then .error (.str "not enough data to decode bool")
  else .ok (data.getD 0 0 != 0)

/-- DecodeInt16 decodes a CIP int16 value. -/
def DecodeInt16 (data : List Nat) : Except GoErr Int :=
  if data.length < 2 then .error (.str "not enough data to decode int16")
  else .ok (int16OfUint16 (le16At data 0))

/-- DecodeInt32 decodes a CIP int32 value. -/
def DecodeInt32 (data : List Nat) : Except GoErr Int :=
  if data.length < 4 then .error (.str "not enough data to decode int32")
  else .ok (int32OfUint32 (le32At data 0))

/-- DecodeFloat32 decodes a CIP float32 value; the result is the binary32
bit pattern of the decoded value (`math.Float32frombits` is the identity on
bit patterns under this representation). -/
def DecodeFloat32 (data : List Nat) : Except GoErr Nat :=
  if data.length < 4 then .error (.str "not enough data to decode float32")
  else .ok (le32At data 0)

/-- Floor of the base-2 logarithm, fuel-driven so that it evaluates in the
kernel; exact for arguments below `2 ^ fuel`. -/
def floorLog2 (fuel n : Nat) : Nat :=
  match fuel with
  | 0 => 0
  | fuel + 1 => if 2 ≤ n then floorLog2 fuel (n / 2) + 1 else 0

/-- The Go conversion `float32(bits)` for a `uint32` argument: the numeric
value of the integer rounded to the nearest binary32 value (ties to even).
The result is the bit pattern of that float32.  For arguments below 2^32 the
result never overflows the binary32 exponent range. -/
def float32FromUint32Go (n : Nat) : Nat :=
  if n = 0 then 0
  else
    let e := floorLog2 40 n
    if e ≤ 23 then
      (e + 127) * 8388608 + (n * 2 ^ (23 - e) - 8388608)
    else
      let s := e - 23
      let q := n / 2 ^ s
      let r := n % 2 ^ s
      let q2 := if 2 ^ s < 2 * r ∨ (2 * r = 2 ^ s ∧ q % 2 = 1) then q + 1 else q
      if q2 = 16777216 then (e + 128) * 8388608
      else (e + 127) * 8388608 + (q2 - 8388608)

/-- Helper function to convert uint32 to float32 (delegates to the Go
implementation, as in the source). -/
def float32FromUint32 (bits : Nat) : Nat :=
  float32FromUint32Go bits

/-- CIPStatusToError: the description chosen by the `switch` on the status
byte (the `default` arm yields "Unknown error"). -/
def cipStatusDescription (status : Nat) : String :=
  match status with
  | 0x01 => "Connection failure"
  | 0x02 => "Resource unavailable"
  | 0x03 => "Invalid parameter value"
  | 0x04 => "Path segment error"
  | 0x05 => "Path destination unknown"
  | 0x06 => "Partial transfer"
  | 0x07 => "Connection lost"
  | 0x08 => "Service not supported"
  | 0x09 => "Invalid attribute value"
  | 0x0A => "Attribute list error"
  | 0x0B => "Already in requested mode/state"
  | 0x0C => "Object state conflict"
  | 0x0D => "Object already exists"
  | 0x0E => "Attribute not settable"
  | 0x0F => "Privilege violation"
  | 0x10 => "Device state conflict"
  | 0x11 => "Reply data too large"
  | 0x12 => "Fragmentation of a primitive value"
  | 0x13 => "Not enough data"
  | 0x14 => "Attribute not supported"
  | 0x15 => "Too much data"
  | 0x16 => "Object does not exist"
  | 0x17 => "Service fragmentation sequence not in progress"
  | 0x18 => "No stored attribute data"
  | 0x19 => "Store operation failure"
  | 0x1A => "Routing failure, request packet too large"
  | 0x1B => "Routing failure, response packet too large"
  | 0x1C => "Missing attribute list entry data"
  | 0x1D => "Invalid attribute value list"
  | 0x1E => "Embedded service error"
  | 0x1F => "Vendor specific error"
  | 0x20 => "Invalid parameter"
  | 0x21 => "Write-once value or medium already written"
  | 0x22 => "Invalid reply received"
  | 0x25 => "Key failure in path"
  | 0x26 => "Path size invalid"
  | 0x27 => "Unexpected attribute in list"
  | 0x28 => "Invalid member ID"
  | 0x29 => "Member not settable"
  | 0xFF => "General Error"
  | _ => "Unknown error"

/-- CIPStatusToError converts a CIP status code to an error: `none` models
the Go `nil` error for status 0. -/
def CIPStatusToError (status : Nat) : Option GoErr :=
  if status = 0 then none
  else some (.cip status (cipStatusDescription status))

/-- BuildCIPPath creates a CIP path from a tag name (given as its byte
list).  `byte(length)` in the source is the `% 256`. -/
def BuildCIPPath (tagName : List Nat) : List Nat :=
  if tagName = [] then []
  else if tagName.length % 2 ≠ 0 then
    (0x91 :: tagName.length % 256 :: tagName) ++ [0]
  else
    0x91 :: tagName.length % 256 :: tagName

/-- BuildCIPReadRequest creates a CIP read request for a tag; `elements` is
the Go `uint16` argument. -/
def BuildCIPReadRequest (tagName : List Nat) (elements : Nat) : List Nat :=
  let path := BuildCIPPath tagName
  [0x4C, ((path.length + 1) / 2) % 256] ++ path ++ le16Bytes elements

/-- BuildCIPWriteRequest creates a CIP write request for a tag; `dataType`
is the Go `byte` argument and `data` the encoded value bytes. -/
def BuildCIPWriteRequest (tagName : List Nat) (dataType : Nat) (data : List Nat) : List Nat :=
  let path := BuildCIPPath tagName
  [0x4D, ((path.length + 1) / 2) % 256] ++ path ++ [dataType, 1] ++ data

/-- ParseCIPResponse parses a CIP response. -/
def ParseCIPResponse (response : List Nat) : Except GoErr (List Nat) :=
  if response.length < 2 then .error (.str "response too short")
  else if response.getD 0 0 &&& 0x80 = 0 then .error (.str "not a response")
  else
    match CIPStatusToError (response.getD 1 0) with
    | some e => .error e
    | none =>
      if response.length ≤ 2 then .ok []
      else .ok (response.drop 2)

/-- ParseCIPReadResponse parses a CIP read response. -/
def ParseCIPReadResponse (response : List Nat) (dataType : Nat) : Except GoErr CIPValue :=
  match ParseCIPResponse response with
  | .error e => .error e
  | .ok data =>
    if data.length < 2 then .error (.str "response data too short")
    else if data.getD 0 0 ≠ dataType then .error (.typeMismatch dataType (data.getD 0 0))
    else
      match dataType with
      | 0xC1 =>
        if data.length < 3 then .error (.str "not enough data for BOOL")
        else .ok (.bool (data.getD 2 0 != 0))
      | 0xC2 =>
        if data.length < 3 then .error (.str "not enough data for SINT")
        else .ok (.sint (int8OfUint8 (data.getD 2 0)))
      | 0xC3 =>
        if data.length < 4 then .error (.str "not enough data for INT")
        else .ok (.int (int16OfUint16 (le16At data 2)))
      | 0xC4 =>
        if data.length < 6 then .error (.str "not enough data for DINT")
        else .ok (.dint (int32OfUint32 (le32At data 2)))
      | 0xCA =>
        if data.length < 6 then .error (.str "not enough data for REAL")
        else .ok (.real (float32FromUint32 (le32At data 2)))
      | 0xD3 =>
        if data.length < 6 then .error (.str "not enough data for DWORD")
        else .ok (.dword (le32At data 2))
      | 0xD0 =>
        if data.length < 4 then .error (.str "not enough data for STRING header")
        else if data.length < 4 + le16At data 2 then .error (.str "string data truncated")
        else .ok (.strv ((data.drop 4).take (le16At data 2)))
      | _ => .ok (.raw (data.drop 2))

/-- The client state: the current session handle, whether the TCP socket has
been closed, and the frames written to the socket so far.  The `conn`,
`timeout` and mutex fields of the Go struct are represented by the closed
flag, the oracle arguments of each operation, and sequential execution. -/
structure Client where
  sessionHandle : Nat
  connClosed : Bool
  sent : List (List Nat)
deriving DecidableEq

/-- The 24-byte EtherNet/IP encapsulation header as written by the client:
command, length, session handle and status little-endian, then the 8 zero
sender-context bytes and the zero options word. -/
def eipHeaderBytes (command length sessionHandle status : Nat) : List Nat :=
  le16Bytes command ++ le16Bytes length ++ le32Bytes sessionHandle ++
    le32Bytes status ++ List.replicate 8 0 ++ le32Bytes 0

/-- The 28-byte Register Session request frame: header (command 0x0065,
length 4) followed by protocol version 1 and options flag 0. -/
def registerSessionFrame : List Nat :=
  eipHeaderBytes 0x65 4 0 0 ++ [1, 0, 0, 0]

/-- `conn.Close()` on the `net.TCPConn` obtained from `net.DialTimeout`: a
first Close releases the descriptor — marking the socket closed even when
the close itself reports an error — and returns the error chosen by the
`closeErr` oracle (`none` is the `nil` success); every later Close
deterministically returns the `net.ErrClosed` error "use of closed network
connection". -/
def connClose (c : Client) (closeErr : Option GoErr) : Client × Except GoErr Unit :=
  if c.connClosed then (c, .error (.str "use of closed network connection"))
  else
    ({ c with connClosed := true },
      match closeErr with
      | none => .ok ()
      | some e => .error e)

/-- RegisterSession registers a new session with the EIP server.  `writeOk`
is the success of the socket write, `resp` the 28 bytes delivered by the
socket read (`none` models a read failure). -/
def Client.RegisterSession (c : Client) (writeOk : Bool) (resp : Option (List Nat)) :
    Client × Except GoErr Unit :=
  if c.sessionHandle ≠ 0 then (c, .ok ())
  else if ¬ writeOk then (c, .error (.str "failed to send register session request"))
  else
    let c1 : Client := { c with sent := c.sent ++ [registerSessionFrame] }
    match resp with
    | none => (c1, .error (.str "failed to read response"))
    | some r =>
      if le16At r 0 ≠ 0x65 then (c1, .error (.str "unexpected response command"))
      else if le32At r 8 ≠ 0 then (c1, .error (.str "registration failed with status"))
      else if le16At r 2 ≠ 4 then (c1, .error (.str "unexpected response length"))
      else ({ c1 with sessionHandle := le32At r 4 }, .ok ())

/-- unregisterSession unregisters the session with the EIP server: the
handle is zeroed only after the 24-byte Unregister frame is written
successfully. -/
def Client.unregisterSession (c : Client) (writeOk : Bool) :
    Client × Except GoErr Unit :=
  if c.sessionHandle = 0 then (c, .ok ())
  else if ¬ writeOk then (c, .error (.str "failed to send unregister session request"))
  else ({ c with
            sessionHandle := 0,
            sent := c.sent ++ [eipHeaderBytes 0x66 0 c.sessionHandle 0] }, .ok ())

/-- Close closes the connection: a failing unregisterSession makes it return
that error before reaching `conn.Close()`, whose result (`closeErr` oracle)
it otherwise propagates. -/
def Client.Close (c : Client) (writeOk : Bool) (closeErr : Option GoErr) :
    Client × Except GoErr Unit :=
  if c.sessionHandle ≠ 0 then
    match c.unregisterSession writeOk with
    | (c1, .error e) => (c1, .error e)
    | (c1, .ok _) => connClose c1 closeErr
  else connClose c closeErr

/-- SendRRData sends a Send RR Data request and returns the embedded
response bytes.  Oracle arguments: `writeOk` for the socket write,
`respHeader` for the 24-byte response header read, `resp6` for the 6-byte
interface-handle/timeout read, `respPayload` for the payload read. -/
def Client.SendRRData (c : Client) (interfaceHandle timeoutHint : Nat) (data : List Nat)
    (writeOk : Bool) (respHeader resp6 respPayload : Option (List Nat)) :
    Client × Except GoErr (List Nat) :=
  if c.sessionHandle = 0 then (c, .error (.str "session not registered"))
  else
    let frame := eipHeaderBytes 0x6F ((6 + data.length) % 65536) c.sessionHandle 0 ++
      le32Bytes interfaceHandle ++ le16Bytes timeoutHint ++ data
    if ¬ writeOk then (c, .error (.str "failed to send request"))
    else
      let c1 : Client := { c with sent := c.sent ++ [frame] }
      match respHeader with
      | none => (c1, .error (.str "failed to read response header"))
      | some hdr =>
        if le16At hdr 0 ≠ 0x6F then (c1, .error (.str "unexpected response command"))
        else if le32At hdr 8 ≠ 0 then (c1, .error (.str "request failed with status"))
        else
          match resp6 with
          | none => (c1, .error (.str "failed to read interface handle and timeout"))
          | some _ =>
            if le16At hdr 2 ≤ 6 then (c1, .ok [])
            else
              match respPayload with
              | none => (c1, .error (.str "failed to read response data"))
              | some p => (c1, .ok p)

/-- SendUnitData sends a Send Unit Data request (one-way, no reply read). -/
def Client.SendUnitData (c : Client) (interfaceHandle timeoutHint : Nat) (data : List Nat)
    (writeOk : Bool) : Client × Except GoErr Unit :=
  if c.sessionHandle = 0 then (c, .error (.str "session not registered"))
  else
    let frame := eipHeaderBytes 0x70 ((6 + data.length) % 65536) c.sessionHandle 0 ++
      le32Bytes interfaceHandle ++ le16Bytes timeoutHint ++ data
    if ¬ writeOk then (c, .error (.str "failed to send request"))
    else ({ c with sent := c.sent ++ [frame] }, .ok ())

/-- The byte list of the tag name "Counter". -/
def counterTag : List Nat := [0x43, 0x6F, 0x75, 0x6E, 0x74, 0x65, 0x72]

instance {ε α : Type} [DecidableEq ε] [DecidableEq α] : DecidableEq (Except ε α)
  | .error e1, .error e2 =>
    if h : e1 = e2 then .isTrue (by rw [h]) else .isFalse (by simp [h])
  | .error _, .ok _ => .isFalse (by simp)
  | .ok _, .error _ => .isFalse (by simp)
  | .ok a, .ok b =>
    if h : a = b then .isTrue (by rw [h]) else .isFalse (by simp [h])

/-- Claim C1: the REAL branch of ParseCIPReadResponse applies the Go numeric
conversion `float32(bits)` to the little-endian value bytes instead of
reinterpreting them as an IEEE-754 bit pattern: on the successful typed read
`CC 00 CA 01 01 00 00 00` the little-endian integer of the value bytes is 1,
so the claimed result is the float32 with bit pattern 1 (about 1.4e-45), but
the code returns float32(1) = 1.0, whose bit pattern is 0x3F800000. -/
theorem parseCIPReadResponse_real_numeric_conversion :
    ParseCIPReadResponse [0xCC, 0x00, 0xCA, 0x01, 0x01, 0x00, 0x00, 0x00] 0xCA
        = .ok (.real (float32FromUint32Go 1)) ∧
    le32At [0x01, 0x00, 0x00, 0x00] 0 = 1 ∧
    float32FromUint32Go 1 = 0x3F800000 ∧
    (0x3F800000 : Nat) ≠ 1 := by
  refine ⟨by decide, by decide, by decide, by decide⟩

/-- Claim C2, counterexample: BuildCIPReadRequest for "Counter" with one
element does not produce the byte string of the claim, whose path-size byte
is 4. -/
theorem buildCIPReadRequest_counter_ne_claim :
    BuildCIPReadRequest counterTag 1 ≠
      [0x4C, 0x04, 0x91, 0x07, 0x43, 0x6F, 0x75, 0x6E, 0x74, 0x65, 0x72, 0x00, 0x01, 0x00] := by
  decide

/-- Claim C2, amended: the path for "Counter" is 10 bytes after padding, so
the path-size byte is (10 + 1) / 2 = 5 words, exactly as the repository test
expects; all remaining bytes agree with the claim. -/
theorem buildCIPRequests_counter_bytes :
    BuildCIPReadRequest counterTag 1 =
      [0x4C, 0x05, 0x91, 0x07, 0x43, 0x6F, 0x75, 0x6E, 0x74, 0x65, 0x72, 0x00, 0x01, 0x00] ∧
    BuildCIPWriteRequest counterTag 0xC4 [0x2A, 0x00, 0x00, 0x00] =
      [0x4D, 0x05, 0x91, 0x07, 0x43, 0x6F, 0x75, 0x6E, 0x74, 0x65, 0x72, 0x00,
        0xC4, 0x01, 0x2A, 0x00, 0x00, 0x00] := by
  refine ⟨by decide, by decide⟩

/-- Claim C3, counterexample: status 0x23 lies in the range 0x01..0x29 but
the switch has no case for it, so it maps to the generic "Unknown error"
description rather than a specific one from the table. -/
theorem cipStatusToError_0x23_generic :
    CIPStatusToError 0x23 = some (.cip 0x23 "Unknown error") ∧
    cipStatusDescription 0x23 = "Unknown error" := by
  refine ⟨by decide, by decide⟩

set_option maxRecDepth 4000 in
/-- Claim C3, amended: status 0 maps to success; every status byte in
0x01..0x29 other than 0x23 and 0x24 gets its specific description from the
table; 0xFF is the distinguished vendor-generic "General Error"; every other
status byte (including 0x23 and 0x24) yields the generic description while
still carrying the numeric code; and parsing `CC 01 00` yields the CIP error
with code 0x01 and description "Connection failure". -/
theorem cipStatusToError_spec :
    CIPStatusToError 0 = none ∧
    (∀ s : Fin 256, 1 ≤ s.val → s.val ≤ 0x29 → s.val ≠ 0x23 → s.val ≠ 0x24 →
      CIPStatusToError s.val = some (.cip s.val (cipStatusDescription s.val)) ∧
        cipStatusDescription s.val ≠ "Unknown error") ∧
    CIPStatusToError 0xFF = some (.cip 0xFF "General Error") ∧
    (∀ s : Fin 256, ((0x29 < s.val ∧ s.val ≠ 0xFF) ∨ s.val = 0x23 ∨ s.val = 0x24) →
      CIPStatusToError s.val = some (.cip s.val "Unknown error")) ∧
    ParseCIPResponse [0xCC, 0x01, 0x00] = .error (.cip 0x01 "Connection failure") := by
  refine ⟨by decide, by decide, by decide, by decide, by decide⟩

/-- Claim C3, witness for the amended theorem at statuses 0x05 and 0x2A. -/
theorem cipStatusToError_spec_witness :
    CIPStatusToError 0x05 = some (.cip 0x05 "Path destination unknown") ∧
    CIPStatusToError 0x2A = some (.cip 0x2A "Unknown error") := by
  refine ⟨?_, ?_⟩
  · have h := cipStatusToError_spec.2.1 ⟨0x05, by decide⟩ (by decide) (by decide)
      (by decide) (by decide)
    simpa [cipStatusDescription] using h.1
  · exact cipStatusToError_spec.2.2.2.1 ⟨0x2A, by decide⟩ (by decide)

/-- Claim C4, counterexample: from the registered state with handle 1, when
the Unregister send fails, Close returns the error, the socket is not
closed, and the handle is still 1 — not zero as claimed; and a second Close
after a successful first one does not return success either, but the
"use of closed network connection" error of the already-closed TCP
connection. -/
theorem close_unregister_send_failure :
    Client.Close ⟨1, false, []⟩ false none
        = (⟨1, false, []⟩, .error (.str "failed to send unregister session request")) ∧
    (Client.Close ⟨1, false, []⟩ false none).1.connClosed = false ∧
    (Client.Close ⟨1, false, []⟩ false none).1.sessionHandle = 1 ∧
    (Client.Close (Client.Close ⟨0, false, []⟩ true none).1 true none).2
        = .error (.str "use of closed network connection") := by
  refine ⟨by decide, by decide, by decide, by decide⟩

/-- Claim C4, amended: when the Unregister send fails from a registered
state, Close surfaces that error, leaves the handle non-zero, and does not
close the socket.  Otherwise — from an unregistered state, or once the
Unregister send succeeded and zeroed the handle — Close closes the open
socket and propagates the result of conn.Close.  Close is not idempotent in
success: a second Close reaches conn.Close on the already-closed TCP
connection and returns its "use of closed network connection" error. -/
theorem close_spec (c : Client) (w : Bool) (ce : Option GoErr) :
    (c.sessionHandle = 0 → c.connClosed = false →
      Client.Close c w ce =
        ({ c with connClosed := true },
          match ce with | none => .ok () | some e => .error e)) ∧
    (c.sessionHandle ≠ 0 → w = true → c.connClosed = false →
      Client.Close c w ce =
        ({ c with
            sessionHandle := 0,
            connClosed := true,
            sent := c.sent ++ [eipHeaderBytes 0x66 0 c.sessionHandle 0] },
          match ce with | none => .ok () | some e => .error e)) ∧
    (c.sessionHandle ≠ 0 → w = false →
      Client.Close c w ce = (c, .error (.str "failed to send unregister session request"))) ∧
    (c.sessionHandle = 0 → c.connClosed = true →
      Client.Close c w ce = (c, .error (.str "use of closed network connection"))) := by
  refine ⟨?_, ?_, ?_, ?_⟩
  · intro h hc
    cases ce <;> simp [Client.Close, h, hc, connClose]
  · intro h hw hc
    subst hw
    cases ce <;> simp [Client.Close, Client.unregisterSession, h, hc, connClose]
  · intro h hw
    subst hw
    simp [Client.Close, Client.unregisterSession, h]
  · intro h hc
    simp [Client.Close, h, hc, connClose]

/-- Claim C4, witness for the amended theorem: a first Close from the
unregistered open state succeeds and closes the socket, a failing Unregister
send from the registered state leaves the client untouched, and Close on an
already-closed socket returns the error of the closed TCP connection. -/
theorem close_spec_witness :
    Client.Close ⟨0, false, []⟩ true none = (⟨0, true, []⟩, .ok ()) ∧
    Client.Close ⟨3, false, []⟩ false none
        = (⟨3, false, []⟩, .error (.str "failed to send unregister session request")) ∧
    Client.Close ⟨0, true, []⟩ true none
        = (⟨0, true, []⟩, .error (.str "use of closed network connection")) :=
  ⟨(close_spec ⟨0, false, []⟩ true none).1 rfl rfl,
   (close_spec ⟨3, false, []⟩ false none).2.2.1 (by decide) rfl,
   (close_spec ⟨0, true, []⟩ true none).2.2.2 rfl rfl⟩

/-- A 28-byte Register Session response frame whose session-handle field
(bytes 4..8) is zero: command 0x0065, length 4, status 0, protocol
version 1. -/
def zeroHandleResp : List Nat :=
  [0x65, 0, 4, 0] ++ [0, 0, 0, 0] ++ [0, 0, 0, 0] ++ List.replicate 12 0 ++ [1, 0, 0, 0]

/-- A 28-byte Register Session response frame with session handle 1. -/
def oneHandleResp : List Nat :=
  [0x65, 0, 4, 0] ++ [1, 0, 0, 0] ++ [0, 0, 0, 0] ++ List.replicate 12 0 ++ [1, 0, 0, 0]

/-- Claim C5, counterexample: RegisterSession accepts a response whose
session-handle field is zero — the call succeeds and the adopted handle is
0, so success does not imply a non-zero handle. -/
theorem registerSession_zero_handle :
    (Client.RegisterSession ⟨0, false, []⟩ true (some zeroHandleResp)).2 = .ok () ∧
    (Client.RegisterSession ⟨0, false, []⟩ true (some zeroHandleResp)).1.sessionHandle = 0 := by
  refine ⟨by decide, by decide⟩

/-- Claim C5, amended: after RegisterSession succeeds the handle equals the
u32 at bytes 4..8 of the response header (with no non-zero check), and a
second call while already registered is a no-op success that leaves the
client unchanged. -/
theorem registerSession_spec (c : Client) :
    (∀ (w : Bool) (r : Option (List Nat)), c.sessionHandle ≠ 0 →
      Client.RegisterSession c w r = (c, .ok ())) ∧
    (∀ resp : List Nat, c.sessionHandle = 0 →
      (Client.RegisterSession c true (some resp)).2 = .ok () →
      (Client.RegisterSession c true (some resp)).1.sessionHandle = le32At resp 4) := by
  constructor
  · intro w r h
    simp [Client.RegisterSession, h]
  · intro resp h hok
    simp only [Client.RegisterSession, h] at hok ⊢
    split_ifs at hok ⊢ <;> simp_all

/-- Claim C5, witness for the amended theorem: a registered client with
handle 7 is untouched, and a successful registration adopts the handle 1
found at bytes 4..8 of the response. -/
theorem registerSession_spec_witness :
    Client.RegisterSession ⟨7, false, []⟩ false none = (⟨7, false, []⟩, .ok ()) ∧
    (Client.RegisterSession ⟨0, false, []⟩ true (some oneHandleResp)).1.sessionHandle
        = le32At oneHandleResp 4 :=
  ⟨(registerSession_spec ⟨7, false, []⟩).1 false none (by decide),
   (registerSession_spec ⟨0, false, []⟩).2 oneHandleResp (by decide) (by decide)⟩

/-- For every non-empty tag name, BuildCIPPath is the symbolic segment byte,
the length byte reduced mod 256, the name bytes, and a pad byte exactly when
the name length is odd. -/
theorem buildCIPPath_eq (s : List Nat) (h : s ≠ []) :
    BuildCIPPath s
      = 0x91 :: s.length % 256 :: (s ++ (if s.length % 2 = 1 then [0] else [])) := by
  unfold BuildCIPPath
  rw [if_neg h]
  by_cases hm : s.length % 2 = 1
  · rw [if_pos (by omega), if_pos hm]
    simp [List.cons_append]
  · rw [if_neg (by omega), if_neg hm]
    simp

set_option maxRecDepth 8000 in
/-- Claim C6, counterexample: for the 256-byte name the length byte of the
path is 0, not the length of the name. -/
theorem buildCIPPath_256_truncates :
    List.replicate 256 (65 : Nat) ≠ [] ∧
    (BuildCIPPath (List.replicate 256 65)).getD 1 0 ≠ (List.replicate 256 (65 : Nat)).length := by
  constructor
  · simp
  · rw [buildCIPPath_eq _ (by simp)]
    simp

/-- Claim C6, amended: for every non-empty tag name of at most 255 bytes the
path has even length, starts with 0x91, carries the exact name length in its
second byte (the pad byte is never counted there), contains the name bytes
from offset 2, and ends in a single 0x00 pad byte exactly when the name
length is odd; the empty name yields an empty path. -/
theorem buildCIPPath_spec (s : List Nat) (h1 : s ≠ []) (h2 : s.length ≤ 255) :
    BuildCIPPath s = 0x91 :: s.length :: (s ++ (if s.length % 2 = 1 then [0] else [])) ∧
    (BuildCIPPath s).length % 2 = 0 ∧
    (BuildCIPPath s).getD 0 0 = 0x91 ∧
    (BuildCIPPath s).getD 1 0 = s.length ∧
    ((BuildCIPPath s).drop 2).take s.length = s ∧
    (s.length % 2 = 1 → (BuildCIPPath s).getLast? = some 0) ∧
    BuildCIPPath [] = [] := by
  have hlt : s.length % 256 = s.length := Nat.mod_eq_of_lt (by omega)
  have key : BuildCIPPath s
      = 0x91 :: s.length :: (s ++ (if s.length % 2 = 1 then [0] else [])) := by
    rw [buildCIPPath_eq s h1, hlt]
  refine ⟨key, ?_, ?_, ?_, ?_, ?_, by decide⟩
  · rw [key]
    by_cases hm : s.length % 2 = 1 <;> simp [hm] <;> omega
  · rw [key]
    simp
  · rw [key]
    simp
  · rw [key]
    by_cases hm : s.length % 2 = 1
    · rw [if_pos hm]
      exact List.take_left s [0]
    · rw [if_neg hm]
      simp
  · intro hm
    rw [key, if_pos hm, ← List.cons_append, ← List.cons_append]
    exact List.getLast?_concat _

/-- Claim C6, witness for the amended theorem at the odd-length name
[1, 2, 3]. -/
theorem buildCIPPath_spec_witness :
    BuildCIPPath [1, 2, 3] = [0x91, 3, 1, 2, 3, 0] :=
  (buildCIPPath_spec [1, 2, 3] (by decide) (by decide)).1

/-- Claim C10: for every non-empty tag name the emitted length byte is the
name length reduced mod 256 while all name bytes are still copied into the
path and no error is reported; for names of at most 255 bytes the length
byte is exact. -/
theorem buildCIPPath_length_byte (s : List Nat) (h : s ≠ []) :
    (BuildCIPPath s).getD 1 0 = s.length % 256 ∧
    ((BuildCIPPath s).drop 2).take s.length = s ∧
    (s.length ≤ 255 → (BuildCIPPath s).getD 1 0 = s.length) := by
  have key := buildCIPPath_eq s h
  refine ⟨?_, ?_, ?_⟩
  · rw [key]
    simp
  · rw [key]
    by_cases hm : s.length % 2 = 1
    · rw [if_pos hm]
      exact List.take_left s [0]
    · rw [if_neg hm]
      simp
  · intro h2
    rw [key]
    simp [Nat.mod_eq_of_lt (show s.length < 256 by omega)]

set_option maxRecDepth 8000 in
/-- Claim C10, witness: the 300-byte name gets length byte 300 % 256 = 44. -/
theorem buildCIPPath_length_byte_witness :
    (BuildCIPPath (List.replicate 300 7)).getD 1 0 = (List.replicate 300 (7 : Nat)).length % 256 :=
  (buildCIPPath_length_byte (List.replicate 300 7) (by simp)).1

/-- Claim C7: ParseCIPResponse rejects every buffer shorter than 2 bytes;
for a buffer of at least 2 bytes whose first byte lacks the 0x80 reply bit
it fails with "not a response"; and with the reply bit set and general
status 0 it returns the bytes from offset 2 onward (empty if none). -/
theorem parseCIPResponse_spec (r : List Nat) :
    (r.length < 2 → ParseCIPResponse r = .error (.str "response too short")) ∧
    (2 ≤ r.length → r.getD 0 0 &&& 0x80 = 0 →
      ParseCIPResponse r = .error (.str "not a response")) ∧
    (2 ≤ r.length → r.getD 0 0 &&& 0x80 ≠ 0 → r.getD 1 0 = 0 →
      ParseCIPResponse r = .ok (r.drop 2)) := by
  refine ⟨?_, ?_, ?_⟩
  · intro h
    unfold ParseCIPResponse
    rw [if_pos h]
  · intro h1 h2
    unfold ParseCIPResponse
    rw [if_neg (by omega), if_pos h2]
  · intro h1 h2 h3
    unfold ParseCIPResponse
    rw [if_neg (by omega), if_neg h2, h3]
    show (if r.length ≤ 2 then Except.ok [] else Except.ok (r.drop 2))
      = Except.ok (r.drop 2)
    by_cases hl : r.length ≤ 2
    · rw [if_pos hl, List.drop_eq_nil_of_le (by omega)]
    · rw [if_neg hl]

/-- Claim C7, witness at the three concrete buffers [0x8A], [0x0A, 0x00]
and [0x8A, 0x00, 0x41]. -/
theorem parseCIPResponse_spec_witness :
    ParseCIPResponse [0x8A] = .error (.str "response too short") ∧
    ParseCIPResponse [0x0A, 0x00] = .error (.str "not a response") ∧
    ParseCIPResponse [0x8A, 0x00, 0x41] = .ok [0x41] :=
  ⟨(parseCIPResponse_spec [0x8A]).1 (by decide),
   (parseCIPResponse_spec [0x0A, 0x00]).2.1 (by decide) (by decide),
   (parseCIPResponse_spec [0x8A, 0x00, 0x41]).2.2 (by decide) (by decide) (by decide)⟩

/-- Round trip of the boolean codec. -/
theorem decodeBool_encodeBool (b : Bool) : DecodeBool (EncodeBool b) = .ok b := by
  cases b <;> rfl

/-- Round trip of the int16 codec on its value domain. -/
theorem decodeInt16_encodeInt16 (v : Int) (h1 : -32768 ≤ v) (h2 : v < 32768) :
    DecodeInt16 (EncodeInt16 v) = .ok v := by
  simp only [DecodeInt16, EncodeInt16, le16Bytes, le16At, toUint16, int16OfUint16,
    List.getD_cons_zero, List.getD_cons_succ, List.length_cons, List.length_nil]
  rw [if_neg (by omega)]
  split_ifs <;> simp only [Except.ok.injEq] <;> omega

/-- Round trip of the int32 codec on its value domain. -/
theorem decodeInt32_encodeInt32 (v : Int) (h1 : -2147483648 ≤ v) (h2 : v < 2147483648) :
    DecodeInt32 (EncodeInt32 v) = .ok v := by
  simp only [DecodeInt32, EncodeInt32, le32Bytes, le32At, toUint32, int32OfUint32,
    List.getD_cons_zero, List.getD_cons_succ, List.length_cons, List.length_nil]
  rw [if_neg (by omega)]
  split_ifs <;> simp only [Except.ok.injEq] <;> omega

/-- Round trip of the float32 codec: the identity on every 32-bit pattern,
hence on every float32 value, NaN payloads included. -/
theorem decodeFloat32_encodeFloat32 (bits : Nat) (h : bits < 4294967296) :
    DecodeFloat32 (EncodeFloat32 bits) = .ok bits := by
  simp only [DecodeFloat32, EncodeFloat32, le32Bytes, le32At,
    List.getD_cons_zero, List.getD_cons_succ, List.length_cons, List.length_nil]
  rw [if_neg (by omega)]
  simp only [Except.ok.injEq]
  omega

/-- Claim C8: decoding the encoder output is the identity for each scalar
codec on its value domain (BOOL, INT, DINT, and REAL represented by its bit
pattern). -/
theorem codec_roundtrip :
    (∀ b : Bool, DecodeBool (EncodeBool b) = .ok b) ∧
    (∀ v : Int, -32768 ≤ v → v < 32768 → DecodeInt16 (EncodeInt16 v) = .ok v) ∧
    (∀ v : Int, -2147483648 ≤ v → v < 2147483648 → DecodeInt32 (EncodeInt32 v) = .ok v) ∧
    (∀ bits : Nat, bits < 4294967296 → DecodeFloat32 (EncodeFloat32 bits) = .ok bits) :=
  ⟨decodeBool_encodeBool, decodeInt16_encodeInt16, decodeInt32_encodeInt32,
   decodeFloat32_encodeFloat32⟩

/-- Claim C8, witness at concrete values of each scalar type. -/
theorem codec_roundtrip_witness :
    DecodeBool (EncodeBool true) = .ok true ∧
    DecodeInt16 (EncodeInt16 (-12345)) = .ok (-12345) ∧
    DecodeInt32 (EncodeInt32 (-2147483648)) = .ok (-2147483648) ∧
    DecodeFloat32 (EncodeFloat32 0x3F800000) = .ok 0x3F800000 :=
  ⟨codec_roundtrip.1 true,
   codec_roundtrip.2.1 (-12345) (by decide) (by decide),
   codec_roundtrip.2.2.1 (-2147483648) (by decide) (by decide),
   codec_roundtrip.2.2.2 0x3F800000 (by decide)⟩

/-- Claim C9: with session handle 0, SendRRData and SendUnitData fail
immediately with "session not registered" and leave the client unchanged —
in particular nothing is appended to the list of frames written to the
connection — whatever the oracle arguments. -/
theorem send_requires_registration (c : Client) (interfaceHandle timeoutHint : Nat)
    (data : List Nat) (w : Bool) (respHeader resp6 respPayload : Option (List Nat))
    (h : c.sessionHandle = 0) :
    Client.SendRRData c interfaceHandle timeoutHint data w respHeader resp6 respPayload
        = (c, .error (.str "session not registered")) ∧
    Client.SendUnitData c interfaceHandle timeoutHint data w
        = (c, .error (.str "session not registered")) := by
  constructor <;> simp [Client.SendRRData, Client.SendUnitData, h]

/-- Claim C9, witness at a concrete unregistered client. -/
theorem send_requires_registration_witness :
    Client.SendRRData ⟨0, false, []⟩ 0 10 [0x4C] true none none none
        = (⟨0, false, []⟩, .error (.str "session not registered")) ∧
    Client.SendUnitData ⟨0, false, []⟩ 0 10 [0x4C] true
        = (⟨0, false, []⟩, .error (.str "session not registered")) :=
  send_requires_registration ⟨0, false, []⟩ 0 10 [0x4C] true none none none rfl
